import Mathlib

/-
Verification of the privileged-execution layer of the Cultivation launcher
(src/src-tauri/src/system_helpers.rs), shallowly embedded in Lean.

Paths are modelled as lists of components (PathBuf components); the
filesystem is an association list from paths to nodes.  Stateful code is
modelled by explicit state passing; the GIMI_STATUS mutex is a record of a
poisoned flag and the contained Option<bool>.  Lock and filesystem events
are recorded in an explicit event trace.
-/

namespace Cultivation

abbrev Path := List String

/-- A filesystem node: a regular file (contents abstracted to a Nat), a
directory, or a symbolic link holding its target path. -/
inductive FsNode where
  | file (data : Nat)
  | dir
  | symlink (target : Path)
deriving DecidableEq, Repr

abbrev FS := List (Path × FsNode)

def fsLookup : FS → Path → Option FsNode
  | [], _ => none
  | (q, n) :: rest, p => if q = p then some n else fsLookup rest p

def fsErase : FS → Path → FS
  | [], _ => []
  | (q, n) :: rest, p => if q = p then fsErase rest p else (q, n) :: fsErase rest p

def fsSet (fs : FS) (p : Path) (n : FsNode) : FS :=
  (p, n) :: fsErase fs p

/-- Path::is_symlink — looks at the entry itself, no following. -/
def fsIsSymlink (fs : FS) (p : Path) : Bool :=
  match fsLookup fs p with
  | some (FsNode.symlink _) => true
  | _ => false

/-- Path::exists — follows a symlink (one level); a dangling link does not exist. -/
def fsPathExists (fs : FS) (p : Path) : Bool :=
  match fsLookup fs p with
  | some (FsNode.symlink t) => (fsLookup fs t).isSome
  | some _ => true
  | none => false

/-- std::fs::rename — fails (Bool false) when the source is absent, otherwise
moves the node, replacing any node at the destination. -/
def fsRename (fs : FS) (src dst : Path) : FS × Bool :=
  match fsLookup fs src with
  | none => (fs, false)
  | some n => (fsSet (fsErase fs src) dst n, true)

/-- std::os::unix::fs::symlink — fails (EEXIST) when anything, even a dangling
link, is already at the link path. -/
def fsSymlinkOp (fs : FS) (target linkPath : Path) : FS × Bool :=
  match fsLookup fs linkPath with
  | some _ => (fs, false)
  | none => (fsSet fs linkPath (FsNode.symlink target), true)

def renderPath (p : Path) : String := String.intercalate "/" p

/-- Debug formatting of an OsStr file name, as produced by the format
specifier used in gimi_unlink: the name wrapped in double quotes. -/
def dbgQuote (s : String) : String := "\"" ++ s ++ "\""

/-- Event trace entries: mutex operations on GIMI_STATUS, writes of the
contained flag, filesystem mutations, and log prints. -/
inductive Ev where
  | lockAcquire
  | lockRelease
  | flagWrite (v : Option Bool)
  | fsWrite (p : Path)
  | print (msg : String)
deriving DecidableEq, Repr

def isLockEv : Ev → Bool
  | Ev.lockAcquire => true
  | Ev.lockRelease => true
  | _ => false

/-- The GIMI_STATUS mutex: Rust mutex poisoning plus the Option<bool> value. -/
structure GimiMutex where
  poisoned : Bool
  value : Option Bool
deriving DecidableEq, Repr

/-- The configuration collaborator: full exe paths; gimi_link and
gimi_unlink pop the final component to obtain the directories. -/
structure Config where
  game_install_path : Option Path
  migoto_path : Option Path
deriving DecidableEq, Repr

def migotoFiles : List String :=
  ["Mods", "ShaderCache", "ShaderFixes", "d3d11.dll", "d3dcompiler_47.dll", "d3dx.ini"]

def migotoDataFiles : List String := ["d3dx_user.ini"]

def migotoLogFiles : List String := ["d3d11_log.txt"]

/-- Sequentially process a list of managed entry names, threading the
filesystem and accumulating events (the shape of each for-loop). -/
def runEntries (step : FS → String → FS × List Ev) (fs : FS) : List String → FS × List Ev
  | [] => (fs, [])
  | f :: rest =>
    let r1 := step fs f
    let r2 := runEntries step r1.1 rest
    (r2.1, r1.2 ++ r2.2)

/-- One iteration of the gimi_link "3dmigoto files" loop: skip when the
install-side path exists, otherwise symlink install side to migoto side
(failure only logged). -/
def linkOne (gameDir migotoDir : Path) (fs : FS) (f : String) : FS × List Ev :=
  let gd := gameDir ++ [f]
  let mg := migotoDir ++ [f]
  if fsPathExists fs gd then
    (fs, [Ev.print (renderPath gd ++ " already exists!")])
  else
    let r := fsSymlinkOp fs mg gd
    if r.2 then (r.1, [Ev.fsWrite gd])
    else (r.1, [Ev.print ("Error symlinking " ++ renderPath mg ++ " to " ++ renderPath gd)])

/-- One iteration of the gimi_link "3dmigoto data" loop: additionally skipped
entirely when the migoto-side source does not exist yet. -/
def linkDataOne (gameDir migotoDir : Path) (fs : FS) (f : String) : FS × List Ev :=
  let mg := migotoDir ++ [f]
  if ¬ fsPathExists fs mg then (fs, [])
  else linkOne gameDir migotoDir fs f

/-- The body of gimi_link after the lock has been obtained with a None value:
config checks, both symlink loops; returns the flag value that is stored
(false on missing config, true on completion). -/
def linkCore (cfg : Config) (fs : FS) : Bool × FS × List Ev :=
  match cfg.game_install_path with
  | none => (false, fs, [Ev.print "No game_install_path"])
  | some gip =>
    match cfg.migoto_path with
    | none => (false, fs, [Ev.print "No migoto_path"])
    | some mp =>
      let gameDir := gip.dropLast
      let migotoDir := mp.dropLast
      let r1 := runEntries (linkOne gameDir migotoDir) fs migotoFiles
      let r2 := runEntries (linkDataOne gameDir migotoDir) r1.1 migotoDataFiles
      (true, r2.1, r1.2 ++ r2.2)

def poisonedMsg : String := "GIMI_STATUS is poisoned! Defaulting to None!"

/-- gimi_link.  Lock GIMI_STATUS: a poisoned lock is recovered by discarding
the stale value and resetting it to None (the mutex itself stays poisoned,
matching Rust, where into_inner does not clear the poison flag).  An Ok lock
holding Some returns immediately ("GIMI already linked.").  Otherwise the
link body runs and the flag is stored. -/
def gimi_link (cfg : Config) (m : GimiMutex) (fs : FS) : GimiMutex × FS × List Ev :=
  if m.poisoned then
    let r := linkCore cfg fs
    let mid := [Ev.print poisonedMsg, Ev.flagWrite none] ++ r.2.2 ++ [Ev.flagWrite (some r.1)]
    (⟨true, some r.1⟩, r.2.1, Ev.lockAcquire :: (mid ++ [Ev.lockRelease]))
  else if m.value.isSome then
    (m, fs, Ev.lockAcquire :: ([Ev.print "GIMI already linked."] ++ [Ev.lockRelease]))
  else
    let r := linkCore cfg fs
    let mid := r.2.2 ++ [Ev.flagWrite (some r.1)]
    (⟨false, some r.1⟩, r.2.1, Ev.lockAcquire :: (mid ++ [Ev.lockRelease]))

/-- The move-back step shared by the gimi_unlink file and data loops: when a
node already exists at the migoto-side destination, the DESTINATION PATH
VARIABLE is rebased to a backup name (Debug-quoted original name plus
".bak"), and then the install-side entry is renamed to that path. -/
def moveBack (migotoDir : Path) (fs : FS) (gd : Path) (f : String) : FS × List Ev :=
  let mg0 := migotoDir ++ [f]
  let conflict := fsPathExists fs mg0
  let mg := if conflict then migotoDir ++ [dbgQuote f ++ ".bak"] else mg0
  let pr : List Ev :=
    if conflict then [Ev.print (renderPath mg0 ++ " already exists! Renaming to backup.")] else []
  let r := fsRename fs gd mg
  if r.2 then (r.1, pr ++ [Ev.fsWrite gd, Ev.fsWrite mg])
  else (r.1, pr ++ [Ev.print ("Error moving " ++ renderPath gd ++ " to " ++ renderPath mg)])

/-- One iteration of the gimi_unlink "3dmigoto files" loop: a symlink on the
install side is removed; any other node is moved back to the migoto side. -/
def unlinkOne (gameDir migotoDir : Path) (fs : FS) (f : String) : FS × List Ev :=
  let gd := gameDir ++ [f]
  if fsIsSymlink fs gd then
    (fsErase fs gd, [Ev.fsWrite gd])
  else
    let r := moveBack migotoDir fs gd f
    (r.1, Ev.print (renderPath gd ++ " is not a symlink.") :: r.2)

/-- One iteration of the gimi_unlink "3dmigoto data" loop: skipped when the
install side does not exist; otherwise like the files loop. -/
def unlinkDataOne (gameDir migotoDir : Path) (fs : FS) (f : String) : FS × List Ev :=
  let gd := gameDir ++ [f]
  if ¬ fsPathExists fs gd then (fs, [])
  else if fsIsSymlink fs gd then (fsErase fs gd, [Ev.fsWrite gd])
  else moveBack migotoDir fs gd f

/-- One iteration of the gimi_unlink "3dmigoto logs" loop: if present on the
install side, unconditionally rename to the migoto side (no backup). -/
def unlinkLogOne (gameDir migotoDir : Path) (fs : FS) (f : String) : FS × List Ev :=
  let gd := gameDir ++ [f]
  let mg := migotoDir ++ [f]
  if ¬ fsPathExists fs gd then (fs, [])
  else
    let r := fsRename fs gd mg
    if r.2 then (r.1, [Ev.fsWrite gd, Ev.fsWrite mg])
    else (r.1, [Ev.print ("Error moving " ++ renderPath gd ++ " to " ++ renderPath mg)])

/-- gimi_unlink.  Note: the function never touches GIMI_STATUS — no lock
events appear in its trace. -/
def gimi_unlink (cfg : Config) (fs : FS) : FS × List Ev :=
  match cfg.game_install_path with
  | none => (fs, [Ev.print "No game_install_path"])
  | some gip =>
    match cfg.migoto_path with
    | none => (fs, [Ev.print "No migoto_path"])
    | some mp =>
      let gameDir := gip.dropLast
      let migotoDir := mp.dropLast
      let r1 := runEntries (unlinkOne gameDir migotoDir) fs migotoFiles
      let r2 := runEntries (unlinkDataOne gameDir migotoDir) r1.1 migotoDataFiles
      let r3 := runEntries (unlinkLogOne gameDir migotoDir) r2.1 migotoLogFiles
      (r3.1, r1.2 ++ r2.2 ++ r3.2)

/-! ## Launch orchestrator and game thread -/

/-- The launcher readiness states named by the match arms in run_un_elevated;
Launch stands for the wildcard arm that lets the launch proceed. -/
inductive LauncherState where
  | FolderMigrationRequired (fromPath : String)
  | WineNotInstalled
  | PrefixNotExists
  | GameNotInstalled
  | Launch
deriving DecidableEq, Repr

/-- The human-readable abort reason produced by the readiness match; none for
the wildcard (proceed) arm. -/
def launchStateBlockReason : LauncherState → Option String
  | LauncherState.FolderMigrationRequired fromPath =>
      some ("A folder migration is required (" ++ fromPath ++ " needs to be moved)")
  | LauncherState.WineNotInstalled => some "Wine is not installed"
  | LauncherState.PrefixNotExists => some "The Wine prefix does not exist"
  | LauncherState.GameNotInstalled => some "The game is not installed"
  | LauncherState.Launch => none

/-- Observable result of the background game thread spawned by
run_un_elevated: a panic message if the thread unwound, whether game::run was
reached, whether gimi_unlink ran, the final mutex and filesystem, and the
event trace of the post-game cleanup (lock lifetime included). -/
structure ThreadResult where
  panicMsg : Option String
  gameRan : Bool
  unlinkCalled : Bool
  gimi : GimiMutex
  fs : FS
  events : List Ev
deriving DecidableEq, Repr

/-- The body of the game launch thread: readiness check (a non-ready state
panics via expect with a human-readable reason; a failure to READ the state is
only printed and the check is skipped), then game::run, then the post-game
cleanup, which unwraps the GIMI_STATUS lock (panicking if it is poisoned) and
takes the flag.  The MutexGuard is a scrutinee temporary of the if-let, so it
lives to the end of the whole if-let statement: when the taken flag was
Some true, gimi_unlink runs WHILE the lock is still held, and the trace shows
the flag take and every unlink event between the acquisition and the release.
On the poison panic the guard inside the error is dropped during unwinding,
releasing the (still poisoned) mutex. -/
def gameThreadRun (cfg : Config) (stateRes : Except String LauncherState)
    (m : GimiMutex) (fs : FS) : ThreadResult :=
  let blocked : Option String :=
    match stateRes with
    | Except.error _ => none
    | Except.ok s =>
      match launchStateBlockReason s with
      | some reason => some ("Cannot launch game. Check the other launcher.: " ++ reason)
      | none => none
  match blocked with
  | some msg => ⟨some msg, false, false, m, fs, []⟩
  | none =>
    if m.poisoned then
      ⟨some "PoisonError on GIMI_STATUS unwrap", true, false, m, fs,
        [Ev.lockAcquire, Ev.lockRelease]⟩
    else
      match m.value with
      | some true =>
        let r := gimi_unlink cfg fs
        ⟨none, true, true, ⟨false, none⟩, r.1,
          Ev.lockAcquire :: ((Ev.flagWrite none :: r.2) ++ [Ev.lockRelease])⟩
      | _ => ⟨none, true, false, ⟨false, none⟩, fs,
          [Ev.lockAcquire, Ev.flagWrite none, Ev.lockRelease]⟩

/-- The cross-thread state owned by the orchestrator: the GIMI_STATUS mutex
and the single-slot AAGL_THREAD handle (handles abstracted to Nat). -/
structure SysState where
  gimi : GimiMutex
  aagl : Option Nat
deriving DecidableEq, Repr

/-- Observable outcome of one run_un_elevated call (the spawned threads
themselves are modelled separately by gameThreadRun). -/
structure RunOutcome where
  gameThreadSpawned : Bool
  gimiLinkCalled : Bool
  wineThreadSpawned : Bool
  wineSpawnPath : Option Path
  noticePrinted : Bool
  mainPanicked : Bool
deriving DecidableEq, Repr

def isPrefixOfCL : List Char → List Char → Bool
  | [], _ => true
  | _ :: _, [] => false
  | p :: ps, c :: cs => p = c && isPrefixOfCL ps cs

def containsCL (pat : List Char) : List Char → Bool
  | [] => isPrefixOfCL pat []
  | c :: cs => isPrefixOfCL pat (c :: cs) || containsCL pat cs

/-- str::contains — substring containment. -/
def strContains (s pat : String) : Bool := containsCL pat.data s.data

/-- Split a file name at its LAST dot: some (stem, ext), or none when it
holds no dot. -/
def splitLastDot : List Char → Option (List Char × List Char)
  | [] => none
  | c :: cs =>
    match splitLastDot cs with
    | some r => some (c :: r.1, r.2)
    | none => if c = '.' then some ([], cs) else none

/-- Path::extension of a file name: the portion after the final dot; none
when there is no dot, or when the only dot is the leading one. -/
def rustExtension (name : String) : Option String :=
  match splitLastDot name.data with
  | none => none
  | some r => if r.1 = [] then none else some (String.mk r.2)

/-- run_un_elevated (Linux).  Classification in source order: the two game
binary names spawn the game thread and overwrite AAGL_THREAD; the mod loader
name or a path containing "3dmigoto" call gimi_link instead of executing;
any other path with extension "exe" spawns a wine thread and then FALLS
THROUGH to the "not supported" notice, which is also printed for other
extensions; a path with no file name or no extension panics on unwrap. -/
def run_un_elevated (cfg : Config) (path : Path) (args : Option String)
    (st : SysState) (fs : FS) (newHandle : Nat) : SysState × FS × RunOutcome :=
  match path.getLast? with
  | none => (st, fs, ⟨false, false, false, none, false, true⟩)
  | some exec_name =>
    if exec_name = "YuanShen.exe" ∨ exec_name = "GenshinImpact.exe" then
      ({ st with aagl := some newHandle }, fs, ⟨true, false, false, none, false, false⟩)
    else if exec_name = "3DMigoto Loader.exe" ∨ strContains (renderPath path) "3dmigoto" = true then
      let r := gimi_link cfg st.gimi fs
      ({ st with gimi := r.1 }, r.2.1, ⟨false, true, false, none, false, false⟩)
    else
      match rustExtension exec_name with
      | none => (st, fs, ⟨false, false, false, none, false, true⟩)
      | some ext =>
        if ext = "exe" then
          (st, fs, ⟨false, false, true, some path, true, false⟩)
        else
          (st, fs, ⟨false, false, false, none, true, false⟩)

/-! ## Service lifecycle -/

/-- to_linux_service_name: the fixed abstract-name table; unknown names map
to none (the Unsupported outcome). -/
def to_linux_service_name (service : String) : Option String :=
  match service with
  | "MongoDB" => some ("mongod" ++ ".service")
  | _ => none

/-- The Linux platform collaborator: systemctl is-active outcome (none when
the command itself fails to run), and the success of start and stop. -/
structure LinuxSvcSys where
  isActive : String → Option Bool
  startCmd : String → Bool
  stopCmd : String → Bool

/-- A record of each platform call the service functions perform. -/
inductive SvcCall where
  | isActive (unit : String)
  | start (unit : String)
  | stop (unit : String)
deriving DecidableEq, Repr

def start_service_linux (sys : LinuxSvcSys) (service : String) : Bool × List SvcCall :=
  match to_linux_service_name service with
  | none => (false, [])
  | some unit => (sys.startCmd unit, [SvcCall.start unit])

def stop_service_linux (sys : LinuxSvcSys) (service : String) : Bool × List SvcCall :=
  match to_linux_service_name service with
  | none => (false, [])
  | some unit => (sys.stopCmd unit, [SvcCall.stop unit])

/-- service_status (Linux): unsupported names return false with no platform
call; a running service returns true; a stopped service returns the result
of the internal start attempt. -/
def service_status_linux (sys : LinuxSvcSys) (service : String) : Bool × List SvcCall :=
  match to_linux_service_name service with
  | none => (false, [])
  | some unit =>
    match sys.isActive unit with
    | none => (false, [SvcCall.isActive unit])
    | some true => (true, [SvcCall.isActive unit])
    | some false =>
      let r := start_service_linux sys service
      (r.1, SvcCall.isActive unit :: r.2)

inductive WinSvcState where
  | stopped
  | running
deriving DecidableEq, Repr

/-- The Windows service-manager collaborator. -/
structure WinSvcSys where
  connectOk : Bool
  openOk : String → Bool
  queryStatus : String → Option WinSvcState
  startOk : String → Bool
  stopOk : String → Bool

inductive WinCall where
  | connect
  | openSvc (s : String)
  | query (s : String)
  | start (s : String)
  | stop (s : String)
deriving DecidableEq, Repr

def start_service_windows (sys : WinSvcSys) (service : String) : Bool × List WinCall :=
  if ¬ sys.connectOk then (false, [WinCall.connect])
  else if ¬ sys.openOk service then (false, [WinCall.connect, WinCall.openSvc service])
  else if sys.startOk service then
    (true, [WinCall.connect, WinCall.openSvc service, WinCall.start service])
  else (false, [WinCall.connect, WinCall.openSvc service, WinCall.start service])

def stop_service_windows (sys : WinSvcSys) (service : String) : Bool × List WinCall :=
  if ¬ sys.connectOk then (false, [WinCall.connect])
  else if ¬ sys.openOk service then (false, [WinCall.connect, WinCall.openSvc service])
  else if sys.stopOk service then
    (true, [WinCall.connect, WinCall.openSvc service, WinCall.stop service])
  else (false, [WinCall.connect, WinCall.openSvc service, WinCall.stop service])

/-- service_status (Windows): on a queried Stopped state it calls
start_service, DISCARDS its result, and returns true regardless. -/
def service_status_windows (sys : WinSvcSys) (service : String) : Bool × List WinCall :=
  if ¬ sys.connectOk then (false, [WinCall.connect])
  else if ¬ sys.openOk service then (false, [WinCall.connect, WinCall.openSvc service])
  else
    match sys.queryStatus service with
    | none => (false, [WinCall.connect, WinCall.openSvc service, WinCall.query service])
    | some stq =>
      if stq = WinSvcState.stopped then
        let r := start_service_windows sys service
        (true, [WinCall.connect, WinCall.openSvc service, WinCall.query service] ++ r.2)
      else (true, [WinCall.connect, WinCall.openSvc service, WinCall.query service])

/-! ## Terminal detection -/

/-- guess_user_terminal: the detection collaborator result (none = failure);
returns the detected identifier, or the fixed fallback "xterm" with the
fallback-logged flag set. -/
def guess_user_terminal (detected : Option String) : String × Bool :=
  match detected with
  | some term => (term, false)
  | none => ("xterm", true)

/-! ## Concrete fixtures -/

def cfgNone : Config := ⟨none, none⟩

def cfg3 : Config :=
  ⟨some ["game", "GenshinImpact.exe"], some ["migoto", "3DMigoto Loader.exe"]⟩

def fs3 : FS :=
  [(["game", "Mods"], FsNode.file 1), (["migoto", "Mods"], FsNode.file 2)]

def st0 : SysState := ⟨⟨false, none⟩, none⟩

def wsysStopFail : WinSvcSys :=
  ⟨true, fun _ => true, fun _ => some WinSvcState.stopped, fun _ => false, fun _ => false⟩

def lsysDown : LinuxSvcSys :=
  ⟨fun _ => some false, fun _ => false, fun _ => false⟩

/-! ## Helper lemmas -/

theorem fsLookup_fsErase (fs : FS) (p q : Path) :
    fsLookup (fsErase fs p) q = if q = p then none else fsLookup fs q := by
  induction fs with
  | nil => simp [fsErase, fsLookup]
  | cons hd tl ih =>
    obtain ⟨k, n⟩ := hd
    simp only [fsErase, fsLookup]
    split_ifs with h1 h2 h3 <;> simp_all [fsLookup]

theorem fsLookup_fsSet (fs : FS) (p : Path) (n : FsNode) (q : Path) :
    fsLookup (fsSet fs p n) q = if q = p then some n else fsLookup fs q := by
  simp only [fsSet, fsLookup, fsLookup_fsErase]
  split_ifs with h1 h2 <;> simp_all [eq_comm]

theorem snoc_eq_iff {xs ys : Path} {x y : String} :
    xs ++ [x] = ys ++ [y] ↔ xs = ys ∧ x = y := by
  constructor
  · intro h
    have h2 := List.append_inj' h rfl
    exact ⟨h2.1, by simpa using h2.2⟩
  · rintro ⟨h1, h2⟩
    rw [h1, h2]

theorem dbgQuote_bak_ne (f : String) : dbgQuote f ++ ".bak" ≠ f := by
  intro h
  have hl : (dbgQuote f ++ ".bak").length = f.length := by rw [h]
  have h1 : ("\"" : String).length = 1 := rfl
  have h2 : (".bak" : String).length = 4 := rfl
  simp only [dbgQuote, String.length_append, h1, h2] at hl
  omega

def noLock (l : List Ev) : Prop := ∀ e ∈ l, isLockEv e = false

theorem noLock_nil : noLock [] := by
  intro e he
  simp at he

theorem noLock_cons {e : Ev} {l : List Ev} (he : isLockEv e = false) (hl : noLock l) :
    noLock (e :: l) := by
  intro x hx
  rcases List.mem_cons.mp hx with h | h
  · rw [h]; exact he
  · exact hl x h

theorem noLock_append {a b : List Ev} (ha : noLock a) (hb : noLock b) : noLock (a ++ b) := by
  intro e he
  rcases List.mem_append.mp he with h | h
  · exact ha e h
  · exact hb e h

theorem noLock_runEntries (step : FS → String → FS × List Ev)
    (hstep : ∀ fs f, noLock (step fs f).2) :
    ∀ (l : List String) (fs : FS), noLock (runEntries step fs l).2 := by
  intro l
  induction l with
  | nil => intro fs; exact noLock_nil
  | cons f rest ih =>
    intro fs
    simp only [runEntries]
    exact noLock_append (hstep fs f) (ih _)

theorem noLock_linkOne (gameDir migotoDir : Path) (fs : FS) (f : String) :
    noLock (linkOne gameDir migotoDir fs f).2 := by
  simp only [linkOne]
  split_ifs <;> simp [noLock, isLockEv]

theorem noLock_linkDataOne (gameDir migotoDir : Path) (fs : FS) (f : String) :
    noLock (linkDataOne gameDir migotoDir fs f).2 := by
  simp only [linkDataOne]
  split_ifs
  · exact noLock_linkOne _ _ _ _
  · exact noLock_nil

theorem noLock_linkCore (cfg : Config) (fs : FS) : noLock (linkCore cfg fs).2.2 := by
  rcases cfg with ⟨gp, mig⟩
  cases gp with
  | none => simp [linkCore, noLock, isLockEv]
  | some gip =>
    cases mig with
    | none => simp [linkCore, noLock, isLockEv]
    | some mp =>
      simp only [linkCore]
      exact noLock_append
        (noLock_runEntries _ (fun fs f => noLock_linkOne _ _ fs f) _ _)
        (noLock_runEntries _ (fun fs f => noLock_linkDataOne _ _ fs f) _ _)

theorem noLock_moveBack (migotoDir : Path) (fs : FS) (gd : Path) (f : String) :
    noLock (moveBack migotoDir fs gd f).2 := by
  simp only [moveBack]
  split_ifs <;> simp [noLock, isLockEv]

theorem noLock_unlinkOne (gameDir migotoDir : Path) (fs : FS) (f : String) :
    noLock (unlinkOne gameDir migotoDir fs f).2 := by
  simp only [unlinkOne]
  split_ifs
  · simp [noLock, isLockEv]
  · exact noLock_cons rfl (noLock_moveBack _ _ _ _)

theorem noLock_unlinkDataOne (gameDir migotoDir : Path) (fs : FS) (f : String) :
    noLock (unlinkDataOne gameDir migotoDir fs f).2 := by
  simp only [unlinkDataOne]
  split_ifs
  · simp [noLock, isLockEv]
  · exact noLock_moveBack _ _ _ _
  · exact noLock_nil

theorem noLock_unlinkLogOne (gameDir migotoDir : Path) (fs : FS) (f : String) :
    noLock (unlinkLogOne gameDir migotoDir fs f).2 := by
  simp only [unlinkLogOne]
  split_ifs <;> simp [noLock, isLockEv]

theorem noLock_gimi_unlink (cfg : Config) (fs : FS) : noLock (gimi_unlink cfg fs).2 := by
  rcases cfg with ⟨gp, mig⟩
  cases gp with
  | none => simp [gimi_unlink, noLock, isLockEv]
  | some gip =>
    cases mig with
    | none => simp [gimi_unlink, noLock, isLockEv]
    | some mp =>
      simp only [gimi_unlink]
      exact noLock_append
        (noLock_append
          (noLock_runEntries _ (fun fs f => noLock_unlinkOne _ _ fs f) _ _)
          (noLock_runEntries _ (fun fs f => noLock_unlinkDataOne _ _ fs f) _ _))
        (noLock_runEntries _ (fun fs f => noLock_unlinkLogOne _ _ fs f) _ _)

/-! ## Claim theorems -/

/-- C10: when terminal emulator detection fails, guess_user_terminal falls
back to the fixed default identifier "xterm", the fallback is logged (flag
true) and not treated as an error; when detection succeeds the detected
identifier is returned without logging.  The function always returns a
terminal identifier. -/
theorem C10_terminal_fallback :
    guess_user_terminal none = ("xterm", true) ∧
    ∀ t : String, guess_user_terminal (some t) = (t, false) :=
  ⟨rfl, fun _ => rfl⟩

/-- C8: classification by executable name, in priority order:
GenshinImpact.exe and YuanShen.exe dispatch to the game-launch branch,
3DMigoto Loader.exe dispatches to gimi_link (no execution), and foo.exe
dispatches to the wine-spawn branch (background spawn of that path, no
wait), for every configuration and prior state. -/
theorem C8_classification (cfg : Config) (args : Option String) (st : SysState)
    (fs : FS) (nh : Nat) :
    ((run_un_elevated cfg ["GenshinImpact.exe"] args st fs nh).2.2.gameThreadSpawned = true ∧
      (run_un_elevated cfg ["GenshinImpact.exe"] args st fs nh).2.2.gimiLinkCalled = false ∧
      (run_un_elevated cfg ["GenshinImpact.exe"] args st fs nh).2.2.wineThreadSpawned = false) ∧
    ((run_un_elevated cfg ["YuanShen.exe"] args st fs nh).2.2.gameThreadSpawned = true ∧
      (run_un_elevated cfg ["YuanShen.exe"] args st fs nh).2.2.gimiLinkCalled = false ∧
      (run_un_elevated cfg ["YuanShen.exe"] args st fs nh).2.2.wineThreadSpawned = false) ∧
    ((run_un_elevated cfg ["3DMigoto Loader.exe"] args st fs nh).2.2.gimiLinkCalled = true ∧
      (run_un_elevated cfg ["3DMigoto Loader.exe"] args st fs nh).2.2.gameThreadSpawned = false ∧
      (run_un_elevated cfg ["3DMigoto Loader.exe"] args st fs nh).2.2.wineThreadSpawned = false) ∧
    ((run_un_elevated cfg ["foo.exe"] args st fs nh).2.2.wineThreadSpawned = true ∧
      (run_un_elevated cfg ["foo.exe"] args st fs nh).2.2.wineSpawnPath = some ["foo.exe"] ∧
      (run_un_elevated cfg ["foo.exe"] args st fs nh).2.2.gameThreadSpawned = false ∧
      (run_un_elevated cfg ["foo.exe"] args st fs nh).2.2.gimiLinkCalled = false) := by
  refine ⟨⟨?_, ?_, ?_⟩, ⟨?_, ?_, ?_⟩, ⟨?_, ?_, ?_⟩, ⟨?_, ?_, ?_, ?_⟩⟩ <;> rfl

/-- C5: link() is idempotent — with the flag already Linked(true) (and the
lock healthy), gimi_link returns immediately after the lock acquisition:
same mutex value, identical filesystem, and a trace showing the
already-linked check happens before any filesystem touch.  Conversely a
completed link (both paths configured, starting from None) sets the flag to
Linked(true). -/
theorem C5_link_idempotent :
    (∀ (cfg : Config) (fs : FS),
      gimi_link cfg ⟨false, some true⟩ fs =
        (⟨false, some true⟩, fs,
          [Ev.lockAcquire, Ev.print "GIMI already linked.", Ev.lockRelease])) ∧
    (∀ (cfg : Config) (m : GimiMutex) (fs : FS),
      m.poisoned = false → m.value = none →
      cfg.game_install_path.isSome = true → cfg.migoto_path.isSome = true →
      (gimi_link cfg m fs).1 = ⟨false, some true⟩) := by
  constructor
  · intro cfg fs
    rfl
  · intro cfg m fs hp hv hg hm
    rcases m with ⟨mp, mv⟩
    simp only at hp hv
    subst hp
    subst hv
    rcases cfg with ⟨gp, mig⟩
    cases gp with
    | none => simp at hg
    | some gip =>
      cases mig with
      | none => simp at hm
      | some mp2 => simp [gimi_link, linkCore]

/-- C5 witness: a second link call on a linked state is an exact no-op at a
concrete configuration, and a completed link at that configuration records
Linked(true). -/
theorem C5_witness :
    gimi_link cfg3 ⟨false, some true⟩ fs3 =
      (⟨false, some true⟩, fs3,
        [Ev.lockAcquire, Ev.print "GIMI already linked.", Ev.lockRelease]) ∧
    (gimi_link cfg3 ⟨false, none⟩ []).1 = ⟨false, some true⟩ :=
  ⟨C5_link_idempotent.1 cfg3 fs3,
    C5_link_idempotent.2 cfg3 ⟨false, none⟩ [] rfl rfl rfl rfl⟩

/-- C2 counterexample: with no game_install_path configured and the state
None beforehand, gimi_link returns with the shared state changed to
Some false — not "exactly what it was before". -/
theorem C2_counterexample :
    (gimi_link cfgNone ⟨false, none⟩ []).1 ≠ (⟨false, none⟩ : GimiMutex) ∧
    (gimi_link cfgNone ⟨false, none⟩ []).1.value = some false := by
  constructor
  · intro h
    simp [gimi_link, linkCore, cfgNone] at h
  · rfl

/-- C2 (amended): when the install path or the mod-loader path is absent,
gimi_link returns early with no filesystem mutation (the filesystem is
unchanged and the trace holds no fsWrite event), but it does mutate the
shared state: the flag is set to Linked(false) rather than left as it was. -/
theorem C2_missing_path_effect (cfg : Config) (m : GimiMutex) (fs : FS)
    (hp : m.poisoned = false) (hv : m.value = none)
    (hcfg : cfg.game_install_path = none ∨ cfg.migoto_path = none) :
    (gimi_link cfg m fs).1 = ⟨false, some false⟩ ∧
    (gimi_link cfg m fs).2.1 = fs ∧
    ∀ p : Path, Ev.fsWrite p ∉ (gimi_link cfg m fs).2.2 := by
  rcases m with ⟨mp, mv⟩
  simp only at hp hv
  subst hp
  subst hv
  rcases cfg with ⟨gp, mig⟩
  have hcore : linkCore ⟨gp, mig⟩ fs = (false, fs, [Ev.print "No game_install_path"]) ∨
      linkCore ⟨gp, mig⟩ fs = (false, fs, [Ev.print "No migoto_path"]) := by
    rcases hcfg with h | h <;> simp only at h <;> subst h
    · left
      rfl
    · cases gp with
      | none => left; rfl
      | some gip => right; rfl
  rcases hcore with h | h <;> simp [gimi_link, h]

/-- C2 witness: the amended behaviour at a concrete call with both paths
absent. -/
theorem C2_witness :
    (gimi_link cfgNone ⟨false, none⟩ []).1 = ⟨false, some false⟩ ∧
    (gimi_link cfgNone ⟨false, none⟩ []).2.1 = [] :=
  ⟨(C2_missing_path_effect cfgNone ⟨false, none⟩ [] rfl rfl (Or.inl rfl)).1,
    (C2_missing_path_effect cfgNone ⟨false, none⟩ [] rfl rfl (Or.inl rfl)).2.1⟩

/-- C4 counterexample: after a panic poisoned the GIMI_STATUS lock, the
post-game cleanup on the launch thread does NOT recover — it unwraps the
poisoned lock and panics, so the poison error is propagated there,
contrary to the claim that it never is. -/
theorem C4_counterexample :
    (⟨true, some true⟩ : GimiMutex).poisoned = true ∧
    (gameThreadRun cfgNone (Except.ok LauncherState.Launch)
        ⟨true, some true⟩ []).panicMsg.isSome = true ∧
    (gameThreadRun cfgNone (Except.ok LauncherState.Launch)
        ⟨true, some true⟩ []).unlinkCalled = false := by
  exact ⟨rfl, rfl, rfl⟩

/-- C4 (amended): gimi_link recovers from a poisoned lock — it discards the
stale value (the outcome is independent of it and matches a start from
None), records the reset to None, and proceeds without error; gimi_unlink
never acquires the lock at all; but the post-game cleanup on the launch
thread unwraps the lock and panics when it is poisoned. -/
theorem C4_poison_recovery (cfg : Config) (v : Option Bool) (fs : FS) :
    (gimi_link cfg ⟨true, v⟩ fs).1.value = (gimi_link cfg ⟨false, none⟩ fs).1.value ∧
    (gimi_link cfg ⟨true, v⟩ fs).2.1 = (gimi_link cfg ⟨false, none⟩ fs).2.1 ∧
    Ev.flagWrite none ∈ (gimi_link cfg ⟨true, v⟩ fs).2.2 ∧
    (∀ e ∈ (gimi_unlink cfg fs).2, isLockEv e = false) ∧
    (gameThreadRun cfg (Except.ok LauncherState.Launch) ⟨true, v⟩ fs).panicMsg.isSome = true := by
  refine ⟨?_, ?_, ?_, noLock_gimi_unlink cfg fs, rfl⟩
  · simp [gimi_link]
  · simp [gimi_link]
  · simp [gimi_link]

/-- C4 witness: the recovery equalities at a concrete poisoned call. -/
theorem C4_witness :
    (gimi_link cfgNone ⟨true, some true⟩ []).1.value =
      (gimi_link cfgNone ⟨false, none⟩ []).1.value ∧
    (gameThreadRun cfgNone (Except.ok LauncherState.Launch)
        ⟨true, some true⟩ []).panicMsg.isSome = true :=
  ⟨(C4_poison_recovery cfgNone (some true) []).1,
    (C4_poison_recovery cfgNone (some true) []).2.2.2.2⟩

/-- C1 counterexample: with readiness state PrefixNotExists (a non-Ready
outcome, as witnessed by its abort reason), launching GenshinImpact.exe
nevertheless spawns the background game thread and overwrites AAGL_THREAD
(None becomes Some 7) — the readiness check only runs inside the already
spawned thread. -/
theorem C1_counterexample :
    (launchStateBlockReason LauncherState.PrefixNotExists).isSome = true ∧
    (gameThreadRun cfgNone (Except.ok LauncherState.PrefixNotExists)
        st0.gimi []).panicMsg.isSome = true ∧
    (run_un_elevated cfgNone ["GenshinImpact.exe"] none st0 [] 7).2.2.gameThreadSpawned = true ∧
    st0.aagl = none ∧
    (run_un_elevated cfgNone ["GenshinImpact.exe"] none st0 [] 7).1.aagl = some 7 :=
  ⟨rfl, rfl, rfl, rfl, rfl⟩

/-- C1 (amended): for a non-Ready readiness outcome the spawned game thread
aborts with a human-readable reason (a panic carrying the reason) before
running the game, and does not touch ModLinkState or the filesystem; but
run_un_elevated itself spawns the background thread and overwrites
AAGL_THREAD unconditionally, before the readiness check runs. -/
theorem C1_launch_gating (cfg : Config) (m : GimiMutex) (fs : FS) (st : SysState)
    (fsr : FS) (nh : Nat) (s : LauncherState)
    (h : launchStateBlockReason s ≠ none) :
    ((gameThreadRun cfg (Except.ok s) m fs).panicMsg.isSome = true ∧
      (gameThreadRun cfg (Except.ok s) m fs).gameRan = false ∧
      (gameThreadRun cfg (Except.ok s) m fs).unlinkCalled = false ∧
      (gameThreadRun cfg (Except.ok s) m fs).gimi = m ∧
      (gameThreadRun cfg (Except.ok s) m fs).fs = fs) ∧
    ((run_un_elevated cfg ["GenshinImpact.exe"] none st fsr nh).2.2.gameThreadSpawned = true ∧
      (run_un_elevated cfg ["GenshinImpact.exe"] none st fsr nh).1.aagl = some nh) := by
  constructor
  · cases s <;> simp_all [gameThreadRun, launchStateBlockReason]
  · exact ⟨rfl, rfl⟩

/-- C1 witness: the amended behaviour at the concrete non-Ready state
WineNotInstalled. -/
theorem C1_witness :
    (gameThreadRun cfgNone (Except.ok LauncherState.WineNotInstalled)
        ⟨false, none⟩ []).panicMsg.isSome = true ∧
    (run_un_elevated cfgNone ["GenshinImpact.exe"] none st0 [] 3).1.aagl = some 3 :=
  ⟨(C1_launch_gating cfgNone ⟨false, none⟩ [] st0 [] 3
      LauncherState.WineNotInstalled (by simp [launchStateBlockReason])).1.1,
    (C1_launch_gating cfgNone ⟨false, none⟩ [] st0 [] 3
      LauncherState.WineNotInstalled (by simp [launchStateBlockReason])).2.2⟩

/-- C6 counterexample: gimi_unlink performs a filesystem mutation (a write
event appears in its trace) while never acquiring the ModLinkState lock (no
lock event in the whole trace) — so unlink does not hold exclusive access to
ModLinkState for its body, contrary to the claim. -/
theorem C6_counterexample :
    Ev.fsWrite ["game", "Mods"] ∈ (gimi_unlink cfg3 fs3).2 ∧
    ∀ e ∈ (gimi_unlink cfg3 fs3).2, isLockEv e = false := by
  constructor
  · decide
  · decide

/-- C6 (amended): gimi_link holds the GIMI_STATUS lock for its entire body —
its trace is exactly one acquisition, then lock-free events (all flag and
filesystem writes included), then one release.  gimi_unlink, in contrast,
never acquires the lock itself: every event of its own trace is lock-free, so
any mutual exclusion for unlink comes from its caller.  At its one call site,
the post-game cleanup, the caller does hold the lock across the call: the
guard obtained for take() is an if-let scrutinee temporary living to the end
of the if-let, so the flag take and all unlink events lie between the
acquisition and the release there. -/
theorem C6_lock_discipline :
    (∀ (cfg : Config) (m : GimiMutex) (fs : FS),
      ∃ mid : List Ev,
        (gimi_link cfg m fs).2.2 = Ev.lockAcquire :: (mid ++ [Ev.lockRelease]) ∧
        ∀ e ∈ mid, isLockEv e = false) ∧
    ((∀ (cfg : Config) (fs : FS), ∀ e ∈ (gimi_unlink cfg fs).2, isLockEv e = false) ∧
      (∀ (cfg : Config) (fs : FS),
        (gameThreadRun cfg (Except.ok LauncherState.Launch)
            ⟨false, some true⟩ fs).events =
          Ev.lockAcquire :: ((Ev.flagWrite none :: (gimi_unlink cfg fs).2) ++
            [Ev.lockRelease]))) := by
  refine ⟨?_, ?_, fun cfg fs => rfl⟩
  · intro cfg m fs
    by_cases hp : m.poisoned = true
    · refine ⟨[Ev.print poisonedMsg, Ev.flagWrite none] ++ (linkCore cfg fs).2.2 ++
        [Ev.flagWrite (some (linkCore cfg fs).1)], ?_, ?_⟩
      · simp [gimi_link, hp]
      · exact noLock_append
          (noLock_append
            (noLock_cons rfl (noLock_cons rfl noLock_nil))
            (noLock_linkCore cfg fs))
          (noLock_cons rfl noLock_nil)
    · by_cases hv : m.value.isSome = true
      · refine ⟨[Ev.print "GIMI already linked."], ?_, ?_⟩
        · simp [gimi_link, hp, hv]
        · exact noLock_cons rfl noLock_nil
      · refine ⟨(linkCore cfg fs).2.2 ++ [Ev.flagWrite (some (linkCore cfg fs).1)], ?_, ?_⟩
        · simp [gimi_link, hp, hv]
        · exact noLock_append (noLock_linkCore cfg fs) (noLock_cons rfl noLock_nil)
  · exact noLock_gimi_unlink

/-- C6 witness: the link trace decomposition at a concrete call. -/
theorem C6_witness :
    ∃ mid : List Ev,
      (gimi_link cfgNone ⟨false, none⟩ []).2.2 =
        Ev.lockAcquire :: (mid ++ [Ev.lockRelease]) ∧
      ∀ e ∈ mid, isLockEv e = false :=
  C6_lock_discipline.1 cfgNone ⟨false, none⟩ []

/-- C7 counterexample: on Windows, service_status with a found service whose
queried state is Stopped attempts the start (the call trace records it), the
start attempt fails, and service_status still returns true — so status can
return true even though the internal start attempt did not succeed. -/
theorem C7_counterexample :
    (service_status_windows wsysStopFail "MongoDB").1 = true ∧
    wsysStopFail.startOk "MongoDB" = false ∧
    (start_service_windows wsysStopFail "MongoDB").1 = false ∧
    WinCall.start "MongoDB" ∈ (service_status_windows wsysStopFail "MongoDB").2 := by
  refine ⟨rfl, rfl, rfl, ?_⟩
  decide

/-- C7 (amended): on Linux, service_status for a found-but-stopped service
returns exactly the result of the internal start attempt, and for an
unsupported abstract name all three service functions return false while
performing no platform call; on Windows, however, service_status on a
found-but-stopped service does attempt the start but returns true regardless
of that attempt's outcome. -/
theorem C7_service_autoheal :
    (∀ (sys : LinuxSvcSys) (svc unit : String),
      to_linux_service_name svc = some unit → sys.isActive unit = some false →
      (service_status_linux sys svc).1 = sys.startCmd unit) ∧
    (∀ (sys : LinuxSvcSys) (svc : String),
      to_linux_service_name svc = none →
      service_status_linux sys svc = (false, []) ∧
      start_service_linux sys svc = (false, []) ∧
      stop_service_linux sys svc = (false, [])) ∧
    (∀ (wsys : WinSvcSys) (svc : String),
      wsys.connectOk = true → wsys.openOk svc = true →
      wsys.queryStatus svc = some WinSvcState.stopped →
      (service_status_windows wsys svc).1 = true ∧
      WinCall.start svc ∈ (service_status_windows wsys svc).2) := by
  refine ⟨?_, ?_, ?_⟩
  · intro sys svc unit hmap hact
    simp [service_status_linux, hmap, hact, start_service_linux]
  · intro sys svc hmap
    simp [service_status_linux, start_service_linux, stop_service_linux, hmap]
  · intro wsys svc hc ho hq
    cases hs : wsys.startOk svc <;>
      simp [service_status_windows, start_service_windows, hc, ho, hq, hs]

/-- C7 witness: the Linux auto-heal equality and the unsupported-name
outcome at concrete inputs. -/
theorem C7_witness :
    (service_status_linux lsysDown "MongoDB").1 = lsysDown.startCmd "mongod.service" ∧
    service_status_linux lsysDown "Postgres" = (false, []) :=
  ⟨C7_service_autoheal.1 lsysDown "MongoDB" "mongod.service" rfl rfl,
    (C7_service_autoheal.2.1 lsysDown "Postgres" rfl).1⟩

/-- C9 counterexample: the path "foo" is classified neither as a game binary
nor as a mod-loader binary, yet run_un_elevated does not print the
"not supported" notice for it — it panics on the extension unwrap first. -/
theorem C9_counterexample :
    (run_un_elevated cfgNone ["foo"] none st0 [] 0).2.2.noticePrinted = false ∧
    (run_un_elevated cfgNone ["foo"] none st0 [] 0).2.2.mainPanicked = true ∧
    (run_un_elevated cfgNone ["foo"] none st0 [] 0).2.2.gameThreadSpawned = false ∧
    (run_un_elevated cfgNone ["foo"] none st0 [] 0).2.2.gimiLinkCalled = false ∧
    rustExtension "foo" = none :=
  ⟨rfl, rfl, rfl, rfl, rfl⟩

/-- C9 (amended): for every input path whose file name has an extension and
that is classified neither as a game binary nor as a mod-loader binary, the
"not supported" notice is printed — including paths with extension "exe",
which are first dispatched to the wine-spawn branch and then fall through to
the notice; a path without an extension instead panics on the unwrap before
the notice. -/
theorem C9_notice_fallthrough (cfg : Config) (args : Option String) (st : SysState)
    (fs : FS) (nh : Nat) (p : Path) (name : String)
    (hlast : p.getLast? = some name)
    (h1 : name ≠ "YuanShen.exe") (h2 : name ≠ "GenshinImpact.exe")
    (h3 : name ≠ "3DMigoto Loader.exe")
    (h4 : strContains (renderPath p) "3dmigoto" = false)
    (h5 : (rustExtension name).isSome = true) :
    (run_un_elevated cfg p args st fs nh).2.2.noticePrinted = true ∧
    (rustExtension name = some "exe" →
      (run_un_elevated cfg p args st fs nh).2.2.wineThreadSpawned = true) := by
  rcases hext : rustExtension name with _ | ext
  · rw [hext] at h5
    simp at h5
  · constructor
    · by_cases he : ext = "exe" <;>
        simp [run_un_elevated, hlast, h1, h2, h3, h4, hext, he]
    · intro hexe
      have he : ext = "exe" := by
        injection hexe
      simp [run_un_elevated, hlast, h1, h2, h3, h4, hext, he]

/-- C9 witness: the notice is printed for foo.exe, which also spawns the
wine branch. -/
theorem C9_witness :
    (run_un_elevated cfgNone ["foo.exe"] none st0 [] 0).2.2.noticePrinted = true :=
  (C9_notice_fallthrough cfgNone none st0 [] 0 ["foo.exe"] "foo.exe" rfl
    (by decide) (by decide) (by decide) rfl rfl).1

/-- C3 counterexample: unlink with a non-symlink real entry game/Mods
(file 1) and a pre-existing conflicting file migoto/Mods (file 2): after
gimi_unlink the pre-existing destination file is NOT under the backup name
and the moved entry does NOT land under the original destination name —
the roles are exactly reversed: the moved install-side entry lands under
the backup name while the pre-existing file keeps its original name. -/
theorem C3_counterexample :
    fsIsSymlink fs3 ["game", "Mods"] = false ∧
    fsLookup fs3 ["game", "Mods"] = some (FsNode.file 1) ∧
    fsLookup fs3 ["migoto", "Mods"] = some (FsNode.file 2) ∧
    fsLookup (gimi_unlink cfg3 fs3).1 ["migoto", "Mods"] ≠ some (FsNode.file 1) ∧
    fsLookup (gimi_unlink cfg3 fs3).1 ["migoto", "\"Mods\".bak"] ≠ some (FsNode.file 2) ∧
    fsLookup (gimi_unlink cfg3 fs3).1 ["migoto", "Mods"] = some (FsNode.file 2) ∧
    fsLookup (gimi_unlink cfg3 fs3).1 ["migoto", "\"Mods\".bak"] = some (FsNode.file 1) := by
  refine ⟨rfl, rfl, rfl, ?_, ?_, rfl, rfl⟩ <;> decide

/-- C3 (amended): when the unlink loop finds a non-symlink real entry on the
install side and a conflicting node already exists at the mod-loader
destination, it is the MOVED install-side entry that is renamed: it lands
under the backup name (the Debug-quoted entry name with suffix ".bak"),
while the pre-existing destination file stays untouched under its original
name, and the install side is cleared — so no data is lost, but the
pre-existing bytes stay under the original name, not the backup name. -/
theorem C3_unlink_backup (gameDir migotoDir : Path) (fs : FS) (f : String) (n : FsNode)
    (hdir : gameDir ≠ migotoDir)
    (hsym : fsIsSymlink fs (gameDir ++ [f]) = false)
    (hgd : fsLookup fs (gameDir ++ [f]) = some n)
    (hmg : fsPathExists fs (migotoDir ++ [f]) = true) :
    fsLookup (unlinkOne gameDir migotoDir fs f).1
      (migotoDir ++ [dbgQuote f ++ ".bak"]) = some n ∧
    fsLookup (unlinkOne gameDir migotoDir fs f).1 (migotoDir ++ [f]) =
      fsLookup fs (migotoDir ++ [f]) ∧
    fsLookup (unlinkOne gameDir migotoDir fs f).1 (gameDir ++ [f]) = none := by
  have hbakf : dbgQuote f ++ ".bak" ≠ f := dbgQuote_bak_ne f
  have hbakgd : migotoDir ++ [dbgQuote f ++ ".bak"] ≠ gameDir ++ [f] := by
    intro h
    exact hdir ((snoc_eq_iff.mp h).1.symm)
  have hgdbak : gameDir ++ [f] ≠ migotoDir ++ [dbgQuote f ++ ".bak"] := by
    intro h
    exact hdir (snoc_eq_iff.mp h).1
  have hmgbak : migotoDir ++ [f] ≠ migotoDir ++ [dbgQuote f ++ ".bak"] := by
    intro h
    exact hbakf ((snoc_eq_iff.mp h).2.symm)
  have hmggd : migotoDir ++ [f] ≠ gameDir ++ [f] := by
    intro h
    exact hdir ((snoc_eq_iff.mp h).1.symm)
  simp only [unlinkOne, hsym, Bool.false_eq_true, if_false, moveBack, hmg, if_true,
    fsRename, hgd]
  refine ⟨?_, ?_, ?_⟩
  · rw [fsLookup_fsSet, if_pos rfl]
  · rw [fsLookup_fsSet, if_neg hmgbak, fsLookup_fsErase, if_neg hmggd]
  · rw [fsLookup_fsSet, if_neg hgdbak, fsLookup_fsErase, if_pos rfl]

/-- C3 witness: the amended backup behaviour at the concrete conflicting
entry Mods. -/
theorem C3_witness :
    fsLookup (unlinkOne ["game"] ["migoto"] fs3 "Mods").1
      (["migoto"] ++ [dbgQuote "Mods" ++ ".bak"]) = some (FsNode.file 1) ∧
    fsLookup (unlinkOne ["game"] ["migoto"] fs3 "Mods").1
      (["migoto"] ++ ["Mods"]) = fsLookup fs3 (["migoto"] ++ ["Mods"]) :=
  ⟨(C3_unlink_backup ["game"] ["migoto"] fs3 "Mods" (FsNode.file 1)
      (by decide) rfl rfl rfl).1,
    (C3_unlink_backup ["game"] ["migoto"] fs3 "Mods" (FsNode.file 1)
      (by decide) rfl rfl rfl).2.1⟩

end Cultivation
